import Mathlib

/-!
Verification of the retry decision engine of p-retry-ts.

The development shallowly embeds the code of src/index.ts together with the
injected network-failure classifier (isNetworkError) and the external
scheduler collaborator (the retry package's RetryOperation, modelled per the
collaborator contract: a list of remaining timeouts consumed by retry, stop
clearing it, and mainError returning the most frequent recorded error).
A session is modelled as a pure recursive function that records, in order,
every call to resolve and reject of the wrapping promise (promise semantics:
the first recorded call is the effective settlement), the number of
invocations of the user operation, and the records passed to shouldRetry and
onFailedAttempt.
-/

namespace PRetryTS

/-- JavaScript values that the embedded code throws, inspects and rejects
with: a non-Error value (carrying its string coercion), a plain Error, a
TypeError, an AbortError (class AbortError of src/index.ts: name
"AbortError", message copied from the wrapped original error), and a
FailedAttemptError (class FailedAttemptError of src/index.ts: attemptNumber,
retriesLeft, message copied from the cause, and the cause itself). -/
inductive JSValue : Type where
  | nonError (stringRepr : String)
  | plainErr (name message : String) (stack : Option String)
  | typeErr (name message : String) (stack : Option String)
  | abortErr (original : JSValue) (name message : String)
  | failedAttempt (attemptNumber : Nat) (retriesLeft : Int) (message : String) (cause : JSValue)
  deriving DecidableEq, Repr

/-- instanceof Error: every error object is an instance, a non-error value
is not. -/
def JSValue.isErrorInstance : JSValue → Bool
  | .nonError _ => false
  | _ => true

/-- instanceof TypeError. -/
def JSValue.isTypeErrorInstance : JSValue → Bool
  | .typeErr _ _ _ => true
  | _ => false

/-- The name property read by isNetworkError; a FailedAttemptError inherits
"Error", a non-error value has none (the empty string stands for undefined,
guarded by the isError check before any use). -/
def JSValue.name : JSValue → String
  | .nonError _ => ""
  | .plainErr n _ _ => n
  | .typeErr n _ _ => n
  | .abortErr _ n _ => n
  | .failedAttempt _ _ _ _ => "Error"

/-- The message property; for a non-error value the property is undefined and
`new Error(undefined)` yields the empty message, which is how the value is
consumed (FailedAttemptError's constructor). -/
def JSValue.message : JSValue → String
  | .nonError _ => ""
  | .plainErr _ m _ => m
  | .typeErr _ m _ => m
  | .abortErr _ _ m => m
  | .failedAttempt _ _ m _ => m

/-- The stack property as far as isNetworkError consults it (defined or
undefined); errors built by a constructor carry a stack. -/
def JSValue.stackProp : JSValue → Option String
  | .nonError _ => none
  | .plainErr _ _ s => s
  | .typeErr _ _ s => s
  | .abortErr _ _ _ => some ""
  | .failedAttempt _ _ _ _ => some ""

/-- The recognized network-failure messages (the errorMessages set of
src/isNetworkError.ts). -/
def errorMessages : List String :=
  ["Failed to fetch",
   "NetworkError when attempting to fetch resource.",
   "The Internet connection appears to be offline.",
   "Load failed",
   "Network request failed",
   "fetch failed"]

/-- isNetworkError of src/isNetworkError.ts: a valid error object named
"TypeError" whose message is in the recognized set, with the extra rule that
"Load failed" is only recognized when the error has no stack. -/
def isNetworkError (error : JSValue) : Bool :=
  if !(error.isErrorInstance && error.name == "TypeError") then
    false
  else if error.message == "Load failed" then
    error.stackProp.isNone
  else
    errorMessages.contains error.message

/-- The abort signal handed in the options: whether it is already aborted and
the reason it carries. -/
structure Signal where
  aborted : Bool
  reason : JSValue

/-- The defaulted options of a session (the defaultedOptions object of
pRetry): retry budget, predicate, observer and the optional cancellation
signal. The predicate and observer may themselves throw, hence the Except
result. Field defaults are the defaults merged at session start. -/
structure Options where
  retries : Nat := 10
  shouldRetry : JSValue → Except JSValue Bool := fun _ => Except.ok true
  onFailedAttempt : JSValue → Except JSValue Unit := fun _ => Except.ok ()
  signal : Option Signal := none

/-- decorateErrorWithCounts of src/index.ts: build a FailedAttemptError with
attemptNumber and retriesLeft = retries - (attemptNumber - 1), message and
cause taken from the error. -/
def decorateErrorWithCounts (error : JSValue) (attemptNumber : Nat) (options : Options) : JSValue :=
  .failedAttempt attemptNumber ((options.retries : Int) - ((attemptNumber : Int) - 1))
    error.message error

/-- Outcome of the failure classifier (lines 145-155 of src/index.ts): either
a value thrown to the surrounding catch (fatal) or a retryable candidate. -/
inductive Classified where
  | fatal (thrown : JSValue)
  | retryable
  deriving DecidableEq, Repr

/-- The message of the TypeError wrapping a thrown non-error value. -/
def nonErrorMessage (stringRepr : String) : String :=
  "Non-error was thrown: \"" ++ stringRepr ++ "\". You should only throw errors."

/-- The classifier of lines 145-155 of src/index.ts, first match wins: a
non-error value is wrapped in a fatal TypeError; an AbortError is unwrapped
to its original error and that is thrown; a TypeError that is not a
recognized network failure is rethrown; everything else is retryable. -/
def classify : JSValue → Classified
  | .nonError r => .fatal (.typeErr "TypeError" (nonErrorMessage r) (some ""))
  | .abortErr original _ _ => .fatal original
  | e => if e.isTypeErrorInstance && !(isNetworkError e) then .fatal e else .retryable

/-- Occurrences of a message among already-recorded errors, for the
scheduler's mainError computation. -/
def countMessage (seen : List JSValue) (m : String) : Nat :=
  (seen.filter (fun e => e.message == m)).length

/-- Scan of the recorded errors keeping the latest error whose message count
is maximal (the >= comparison of RetryOperation.mainError). -/
def mainErrorGo : List JSValue → List JSValue → JSValue → Nat → JSValue
  | [], _, best, _ => best
  | e :: rest, seen, best, bestCount =>
    let c := countMessage seen e.message + 1
    if bestCount ≤ c then mainErrorGo rest (seen ++ [e]) e c
    else mainErrorGo rest (seen ++ [e]) best bestCount

/-- mainError of the external scheduler: the recorded error whose message
occurs most often, the latest maximal one winning; null (modelled as a
non-error) when nothing was recorded. -/
def mainError : List JSValue → JSValue
  | [] => .nonError "null"
  | e :: rest => mainErrorGo rest [e] e 1

/-- One call to resolve or reject of the session's wrapping promise. -/
inductive SettleCall (T : Type) where
  | resolveCall (value : T)
  | rejectCall (reason : JSValue)
  deriving DecidableEq, Repr

/-- Everything one session run produces: the resolve and reject calls in
order (per promise semantics only the first is effective), the number of
invocations of the user operation, and the FailedAttemptError records passed
to shouldRetry and to onFailedAttempt, in order. -/
structure SessionResult (T : Type) where
  settleCalls : List (SettleCall T)
  invocations : Nat
  shouldRetrySeen : List JSValue
  onFailedAttemptSeen : List JSValue
  deriving DecidableEq, Repr

/-- The attempt callback of pRetry (lines 138-177 of src/index.ts), run over
the modelled scheduler: timeouts is the scheduler's remaining timeout list
length (retries at session start; stop clears it, a granted retry consumes
one), attemptNumber the current 1-based attempt, errors the errors recorded
by the scheduler. Transcription of the control flow: success resolves;
a fatal classification throws to the catch which decorates and rejects; the
veto path stops the scheduler and rejects with the raw error but falls
through (no return in the source), so the observer still runs and the
scheduler is still asked to retry, which it denies after the stop; a
throwing predicate or observer reaches the catch; a denied retry throws
the scheduler's mainError to the catch. -/
def sessionLoop {T : Type} (input : Nat → Except JSValue T) (options : Options) :
    Nat → Nat → List JSValue → SessionResult T
  | timeouts, attemptNumber, errors =>
    match input attemptNumber with
    | .ok value => ⟨[.resolveCall value], 1, [], []⟩
    | .error error =>
      match classify error with
      | .fatal thrown =>
        ⟨[.rejectCall (decorateErrorWithCounts thrown attemptNumber options)], 1, [], []⟩
      | .retryable =>
        let fae := decorateErrorWithCounts error attemptNumber options
        match options.shouldRetry fae with
        | .error thrown =>
          ⟨[.rejectCall (decorateErrorWithCounts thrown attemptNumber options)], 1, [fae], []⟩
        | .ok false =>
          match options.onFailedAttempt fae with
          | .error thrown =>
            ⟨[.rejectCall error,
              .rejectCall (decorateErrorWithCounts thrown attemptNumber options)],
             1, [fae], [fae]⟩
          | .ok _ =>
            ⟨[.rejectCall error,
              .rejectCall (decorateErrorWithCounts (mainError (errors ++ [fae]))
                attemptNumber options)],
             1, [fae], [fae]⟩
        | .ok true =>
          match options.onFailedAttempt fae with
          | .error thrown =>
            ⟨[.rejectCall (decorateErrorWithCounts thrown attemptNumber options)],
             1, [fae], [fae]⟩
          | .ok _ =>
            match timeouts with
            | 0 =>
              ⟨[.rejectCall (decorateErrorWithCounts (mainError (errors ++ [fae]))
                  attemptNumber options)],
               1, [fae], [fae]⟩
            | t + 1 =>
              let rest := sessionLoop input options t (attemptNumber + 1) (errors ++ [fae])
              ⟨rest.settleCalls, rest.invocations + 1,
               fae :: rest.shouldRetrySeen, fae :: rest.onFailedAttemptSeen⟩

/-- Line 129 of src/index.ts: the abort listener is registered only when a
signal is present and not already aborted. -/
def registersAbortHandler (options : Options) : Bool :=
  match options.signal with
  | some s => !s.aborted
  | none => false

/-- pRetry of src/index.ts: run the session from attempt 1 with the
scheduler's timeout list filled from the retry budget and nothing recorded. -/
def pRetry {T : Type} (input : Nat → Except JSValue T) (options : Options) : SessionResult T :=
  sessionLoop input options options.retries 1 []

/-- Attempt i fails with an error classified retryable, the predicate
consents and the observer returns normally: the session proceeds to the next
attempt when the scheduler still has budget. -/
def proceedsAt {T : Type} (input : Nat → Except JSValue T) (options : Options) (i : Nat) : Prop :=
  ∃ e, input i = Except.error e ∧ classify e = Classified.retryable ∧
    options.shouldRetry (decorateErrorWithCounts e i options) = Except.ok true ∧
    options.onFailedAttempt (decorateErrorWithCounts e i options) = Except.ok ()

/-- The error of a failed attempt outcome (dummy on success, used only where
failure is known). -/
def errOf {T : Type} : Except JSValue T → JSValue
  | .error e => e
  | .ok _ => .nonError "undefined"

/-- The FailedAttemptError record built for attempt i. -/
def faeAt {T : Type} (input : Nat → Except JSValue T) (options : Options) (i : Nat) : JSValue :=
  decorateErrorWithCounts (errOf (input i)) i options

/-- The records built for attempts a, a+1, ..., a+j-1. -/
def faeRange {T : Type} (input : Nat → Except JSValue T) (options : Options) :
    Nat → Nat → List JSValue
  | _, 0 => []
  | a, j + 1 => faeAt input options a :: faeRange input options (a + 1) j

theorem sessionLoop_skip {T : Type} (input : Nat → Except JSValue T) (options : Options) :
    ∀ (j timeouts a : Nat) (errors : List JSValue),
      (∀ i, i < j → proceedsAt input options (a + i)) → j ≤ timeouts →
      sessionLoop input options timeouts a errors =
        { settleCalls := (sessionLoop input options (timeouts - j) (a + j)
            (errors ++ faeRange input options a j)).settleCalls
          invocations := j + (sessionLoop input options (timeouts - j) (a + j)
            (errors ++ faeRange input options a j)).invocations
          shouldRetrySeen := faeRange input options a j ++
            (sessionLoop input options (timeouts - j) (a + j)
              (errors ++ faeRange input options a j)).shouldRetrySeen
          onFailedAttemptSeen := faeRange input options a j ++
            (sessionLoop input options (timeouts - j) (a + j)
              (errors ++ faeRange input options a j)).onFailedAttemptSeen } := by
  intro j
  induction j with
  | zero =>
    intro timeouts a errors _ _
    simp [faeRange]
  | succ j ih =>
    intro timeouts a errors hpre hle
    obtain ⟨e, he, hcls, hsr, hofa⟩ := hpre 0 (Nat.succ_pos j)
    simp only [Nat.add_zero] at he hsr hofa
    obtain ⟨t, rfl⟩ : ∃ t, timeouts = t + 1 := ⟨timeouts - 1, by omega⟩
    have hfae : faeAt input options a = decorateErrorWithCounts e a options := by
      simp [faeAt, he, errOf]
    have hpre' : ∀ i, i < j → proceedsAt input options (a + 1 + i) := by
      intro i hi
      have := hpre (i + 1) (by omega)
      rwa [show a + (i + 1) = a + 1 + i by omega] at this
    have hrec := ih t (a + 1) (errors ++ [decorateErrorWithCounts e a options]) hpre' (by omega)
    conv_lhs => rw [sessionLoop]
    simp only [he, hcls, hsr, hofa]
    rw [hrec]
    have h1 : t + 1 - (j + 1) = t - j := by omega
    have h2 : a + (j + 1) = a + 1 + j := by omega
    simp only [faeRange, hfae, h1, h2, List.append_assoc, List.singleton_append,
      List.cons_append, List.nil_append]
    congr 1
    omega

/-- A session result settles effectively once: either the calls are exactly
one resolve, or they are a nonempty run of rejects (promise semantics make
the first of them the effective settlement, so resolve and reject are never
both called). -/
def settleOnce {T : Type} (r : SessionResult T) : Prop :=
  (∃ v, r.settleCalls = [SettleCall.resolveCall v]) ∨
  (r.settleCalls ≠ [] ∧ ∀ c ∈ r.settleCalls, ∃ x, c = SettleCall.rejectCall x)

theorem sessionLoop_settle_structure {T : Type} (input : Nat → Except JSValue T)
    (options : Options) :
    ∀ (timeouts a : Nat) (errors : List JSValue),
      settleOnce (sessionLoop input options timeouts a errors) := by
  intro timeouts
  induction timeouts with
  | zero =>
    intro a errors
    rw [sessionLoop]
    rcases h1 : input a with e | v
    · rcases h2 : classify e with th | _
      · simp [settleOnce, h1, h2]
      · rcases h3 : options.shouldRetry (decorateErrorWithCounts e a options) with th | b
        · simp [settleOnce, h1, h2, h3]
        · rcases h4 : options.onFailedAttempt (decorateErrorWithCounts e a options) with th | u
          · rcases b <;> simp [settleOnce, h1, h2, h3, h4]
          · rcases b <;> simp [settleOnce, h1, h2, h3, h4]
    · simp [settleOnce, h1]
  | succ t ih =>
    intro a errors
    rw [sessionLoop]
    rcases h1 : input a with e | v
    · rcases h2 : classify e with th | _
      · simp [settleOnce, h1, h2]
      · rcases h3 : options.shouldRetry (decorateErrorWithCounts e a options) with th | b
        · simp [settleOnce, h1, h2, h3]
        · rcases h4 : options.onFailedAttempt (decorateErrorWithCounts e a options) with th | u
          · rcases b <;> simp [settleOnce, h1, h2, h3, h4]
          · rcases b
            · simp [settleOnce, h1, h2, h3, h4]
            · simp only [h1, h2, h3, h4]
              exact ih (a + 1) (errors ++ [decorateErrorWithCounts e a options])
    · simp [settleOnce, h1]

/-- Every record in the list, at 0-based position j, is a FailedAttemptError
for attempt a + j whose retriesLeft is retries - (attemptNumber - 1). -/
def seenShape (options : Options) (a : Nat) (l : List JSValue) : Prop :=
  ∀ j f, l.get? j = some f →
    ∃ m c, f = JSValue.failedAttempt (a + j)
      ((options.retries : Int) - (((a + j : Nat) : Int) - 1)) m c

theorem seenShape_nil (options : Options) (a : Nat) : seenShape options a [] := by
  intro j f h
  simp at h

theorem seenShape_singleton (options : Options) (a : Nat) (e : JSValue) :
    seenShape options a [decorateErrorWithCounts e a options] := by
  intro j f h
  cases j with
  | zero =>
    rw [List.get?_cons_zero] at h
    injection h with h
    exact ⟨e.message, e, by simp [← h, decorateErrorWithCounts]⟩
  | succ j =>
    rw [List.get?_cons_succ, List.get?_nil] at h
    exact absurd h (by simp)

theorem seenShape_cons (options : Options) (a : Nat) (e : JSValue) (l : List JSValue)
    (h : seenShape options (a + 1) l) :
    seenShape options a (decorateErrorWithCounts e a options :: l) := by
  intro j f hf
  cases j with
  | zero =>
    rw [List.get?_cons_zero] at hf
    injection hf with hf
    exact ⟨e.message, e, by simp [← hf, decorateErrorWithCounts]⟩
  | succ j =>
    rw [List.get?_cons_succ] at hf
    obtain ⟨m, c, hmc⟩ := h j f hf
    have harith : a + 1 + j = a + (j + 1) := by omega
    rw [harith] at hmc
    exact ⟨m, c, hmc⟩

theorem sessionLoop_seen_shape {T : Type} (input : Nat → Except JSValue T)
    (options : Options) :
    ∀ (timeouts a : Nat) (errors : List JSValue),
      seenShape options a (sessionLoop input options timeouts a errors).shouldRetrySeen ∧
      seenShape options a (sessionLoop input options timeouts a errors).onFailedAttemptSeen := by
  intro timeouts
  induction timeouts with
  | zero =>
    intro a errors
    rw [sessionLoop]
    rcases h1 : input a with e | v
    · rcases h2 : classify e with th | _
      · simp only [h1, h2]
        exact ⟨seenShape_nil _ _, seenShape_nil _ _⟩
      · rcases h3 : options.shouldRetry (decorateErrorWithCounts e a options) with th | b
        · simp only [h1, h2, h3]
          exact ⟨seenShape_singleton _ _ _, seenShape_nil _ _⟩
        · rcases h4 : options.onFailedAttempt (decorateErrorWithCounts e a options) with th | u
          · rcases b <;> simp only [h1, h2, h3, h4] <;>
              exact ⟨seenShape_singleton _ _ _, seenShape_singleton _ _ _⟩
          · rcases b <;> simp only [h1, h2, h3, h4] <;>
              exact ⟨seenShape_singleton _ _ _, seenShape_singleton _ _ _⟩
    · simp only [h1]
      exact ⟨seenShape_nil _ _, seenShape_nil _ _⟩
  | succ t ih =>
    intro a errors
    rw [sessionLoop]
    rcases h1 : input a with e | v
    · rcases h2 : classify e with th | _
      · simp only [h1, h2]
        exact ⟨seenShape_nil _ _, seenShape_nil _ _⟩
      · rcases h3 : options.shouldRetry (decorateErrorWithCounts e a options) with th | b
        · simp only [h1, h2, h3]
          exact ⟨seenShape_singleton _ _ _, seenShape_nil _ _⟩
        · rcases h4 : options.onFailedAttempt (decorateErrorWithCounts e a options) with th | u
          · rcases b <;> simp only [h1, h2, h3, h4] <;>
              exact ⟨seenShape_singleton _ _ _, seenShape_singleton _ _ _⟩
          · rcases b
            · simp only [h1, h2, h3, h4]
              exact ⟨seenShape_singleton _ _ _, seenShape_singleton _ _ _⟩
            · simp only [h1, h2, h3, h4]
              have := ih (a + 1) (errors ++ [decorateErrorWithCounts e a options])
              exact ⟨seenShape_cons _ _ _ _ this.1, seenShape_cons _ _ _ _ this.2⟩
    · simp only [h1]
      exact ⟨seenShape_nil _ _, seenShape_nil _ _⟩

theorem sessionLoop_options_congr {T : Type} (input : Nat → Except JSValue T)
    (o1 o2 : Options) (hr : o1.retries = o2.retries)
    (hsr : o1.shouldRetry = o2.shouldRetry)
    (hofa : o1.onFailedAttempt = o2.onFailedAttempt) :
    ∀ (timeouts a : Nat) (errors : List JSValue),
      sessionLoop input o1 timeouts a errors = sessionLoop input o2 timeouts a errors := by
  have hdec : ∀ e n, decorateErrorWithCounts e n o1 = decorateErrorWithCounts e n o2 := by
    intro e n
    simp [decorateErrorWithCounts, hr]
  intro timeouts
  induction timeouts with
  | zero =>
    intro a errors
    conv_lhs => rw [sessionLoop]
    conv_rhs => rw [sessionLoop]
    rcases h1 : input a with e | v
    · simp only [h1, hdec, hsr, hofa]
    · simp only [h1]
  | succ t ih =>
    intro a errors
    conv_lhs => rw [sessionLoop]
    conv_rhs => rw [sessionLoop]
    rcases h1 : input a with e | v
    · rcases h2 : classify e with th | _
      · simp only [h1, h2, hdec]
      · rcases h3 : o2.shouldRetry (decorateErrorWithCounts e a o2) with th | b
        · simp only [h1, h2, hdec, hsr, hofa, h3]
        · rcases h4 : o2.onFailedAttempt (decorateErrorWithCounts e a o2) with th | u
          · rcases b <;> simp only [h1, h2, hdec, hsr, hofa, h3, h4]
          · rcases b
            · simp only [h1, h2, hdec, hsr, hofa, h3, h4]
            · simp only [h1, h2, hdec, hsr, hofa, h3, h4, ih]
    · simp only [h1]

/-- C3: every execution of a retry session settles the returned promise
effectively exactly once: the recorded resolve/reject calls are never empty
(the effective settlement is the first of them, by promise semantics), and no
session ever records both a resolve and a reject, so the vetoed,
observer-failed and budget-exhausted paths never both resolve and reject nor
settle effectively twice with different values. -/
theorem claim3_settles_exactly_once {T : Type} (input : Nat → Except JSValue T)
    (options : Options) :
    (pRetry input options).settleCalls ≠ [] ∧
      ¬ ((∃ v, SettleCall.resolveCall v ∈ (pRetry input options).settleCalls) ∧
         (∃ x, SettleCall.rejectCall x ∈ (pRetry input options).settleCalls)) := by
  have h := sessionLoop_settle_structure input options options.retries 1 []
  rw [pRetry]
  rcases h with ⟨v, hv⟩ | ⟨hne, hall⟩
  · refine ⟨by rw [hv]; simp, ?_⟩
    rintro ⟨-, ⟨x, hx⟩⟩
    rw [hv] at hx
    simp at hx
  · refine ⟨hne, ?_⟩
    rintro ⟨⟨v, hv⟩, -⟩
    obtain ⟨y, hy⟩ := hall _ hv
    cases hy

/-- C6: an operation throwing a non-error value is invoked exactly once and
the session rejects with a single reject call whose reason is the decorated
wrapper of the fatal TypeError with message
Non-error was thrown: "value". You should only throw errors. — the
rejection's own message is exactly that string, so it matches /Non-error/. -/
theorem claim6_non_error_single_attempt {T : Type} (input : Nat → Except JSValue T)
    (options : Options) (r : String)
    (he : input 1 = Except.error (JSValue.nonError r)) :
    (pRetry input options).invocations = 1 ∧
    (pRetry input options).settleCalls =
      [SettleCall.rejectCall (decorateErrorWithCounts
        (JSValue.typeErr "TypeError" (nonErrorMessage r) (some "")) 1 options)] ∧
    (decorateErrorWithCounts
      (JSValue.typeErr "TypeError" (nonErrorMessage r) (some "")) 1 options).message =
      nonErrorMessage r := by
  have hrun : sessionLoop input options options.retries 1 [] =
      ⟨[SettleCall.rejectCall (decorateErrorWithCounts
          (JSValue.typeErr "TypeError" (nonErrorMessage r) (some "")) 1 options)],
        1, [], []⟩ := by
    rw [sessionLoop]
    simp [he, classify]
  rw [pRetry, hrun]
  exact ⟨rfl, rfl, rfl⟩

/-- C7: an operation throwing a TypeError whose message is not a recognized
network-failure message is invoked exactly once, the error is not classified
as a network error, and the session rejects, regardless of the configured
retry budget. -/
theorem claim7_type_error_single_attempt {T : Type} (input : Nat → Except JSValue T)
    (options : Options) (nm m : String) (st : Option String)
    (hm : m ∉ errorMessages)
    (he : input 1 = Except.error (JSValue.typeErr nm m st)) :
    isNetworkError (JSValue.typeErr nm m st) = false ∧
    (pRetry input options).invocations = 1 ∧
    (pRetry input options).settleCalls =
      [SettleCall.rejectCall (decorateErrorWithCounts (JSValue.typeErr nm m st) 1 options)] := by
  have hnet : isNetworkError (JSValue.typeErr nm m st) = false := by
    rw [isNetworkError]
    by_cases hnm : nm = "TypeError"
    · subst hnm
      by_cases hlf : m = "Load failed"
      · exact absurd (hlf ▸ (by decide : "Load failed" ∈ errorMessages)) hm
      · simp only [JSValue.isErrorInstance, JSValue.name, JSValue.message, JSValue.stackProp]
        simp [hlf]
        simpa using hm
    · simp [JSValue.isErrorInstance, JSValue.name, hnm]
  have hcls : classify (JSValue.typeErr nm m st) =
      Classified.fatal (JSValue.typeErr nm m st) := by
    simp [classify, hnet, JSValue.isTypeErrorInstance]
  have hrun : sessionLoop input options options.retries 1 [] =
      ⟨[SettleCall.rejectCall (decorateErrorWithCounts (JSValue.typeErr nm m st) 1 options)],
        1, [], []⟩ := by
    rw [sessionLoop]
    simp [he, hcls]
  rw [pRetry, hrun]
  exact ⟨hnet, rfl, rfl⟩

/-- C8: every FailedAttemptError record handed to shouldRetry or to
onFailedAttempt during a session carries, at 0-based observation position j
(so for the failed attempt n = 1 + j), attemptNumber = 1 + j and
retriesLeft = retries - (attemptNumber - 1). -/
theorem claim8_record_counts {T : Type} (input : Nat → Except JSValue T)
    (options : Options) :
    seenShape options 1 (pRetry input options).shouldRetrySeen ∧
    seenShape options 1 (pRetry input options).onFailedAttemptSeen :=
  sessionLoop_seen_shape input options options.retries 1 []

/-- C9: when attempts 1..k-1 fail with retryable errors on which the
predicate consents and the observer returns normally, k-1 is within the
retry budget, and attempt k succeeds with value v, the session resolves with
v (a single resolve call) and the operation is invoked exactly k times. -/
theorem claim9_success_on_attempt_k {T : Type} (input : Nat → Except JSValue T)
    (options : Options) (k : Nat) (v : T)
    (hk : 1 ≤ k) (hbound : k - 1 ≤ options.retries)
    (hpre : ∀ i, i < k - 1 → proceedsAt input options (1 + i))
    (hok : input k = Except.ok v) :
    (pRetry input options).settleCalls = [SettleCall.resolveCall v] ∧
    (pRetry input options).invocations = k := by
  have hskip := sessionLoop_skip input options (k - 1) options.retries 1 [] hpre hbound
  have h1k : 1 + (k - 1) = k := by omega
  rw [h1k] at hskip
  have hstep : ∀ (timeouts : Nat) (errors : List JSValue),
      sessionLoop input options timeouts k errors =
        ⟨[SettleCall.resolveCall v], 1, [], []⟩ := by
    intro timeouts errors
    rw [sessionLoop]
    simp [hok]
  rw [pRetry, hskip, hstep]
  exact ⟨rfl, by simp; omega⟩

/-- C10: when the signal supplied in the options is already aborted at
invocation time, no abort listener is registered (line 129) and the session
behaves exactly as if no signal had been supplied: same settle calls, same
number of invocations, same observer and predicate calls. -/
theorem claim10_pre_aborted_signal {T : Type} (input : Nat → Except JSValue T)
    (options : Options) (s : Signal)
    (hsig : options.signal = some s) (hab : s.aborted = true) :
    registersAbortHandler options = false ∧
    pRetry input options = pRetry input { options with signal := none } := by
  refine ⟨?_, ?_⟩
  · rw [registersAbortHandler]
    simp [hsig, hab]
  · rw [pRetry, pRetry]
    exact sessionLoop_options_congr input options { options with signal := none }
      rfl rfl rfl options.retries 1 []

/-- C1 (amended): when the predicate vetoes retrying on attempt k of a
session whose earlier attempts all proceeded, the operation is invoked
exactly k times and the effective settlement (first reject call) carries the
original classified error undecorated — but, because the veto path of the
source does not return after rejecting, onFailedAttempt IS still invoked
with the record of attempt k after the veto. -/
theorem claim1_amended_veto {T : Type} (input : Nat → Except JSValue T)
    (options : Options) (k : Nat) (e : JSValue)
    (hk : 1 ≤ k) (hbound : k - 1 ≤ options.retries)
    (hpre : ∀ i, i < k - 1 → proceedsAt input options (1 + i))
    (he : input k = Except.error e) (hcls : classify e = Classified.retryable)
    (hveto : options.shouldRetry (decorateErrorWithCounts e k options) = Except.ok false) :
    (pRetry input options).invocations = k ∧
    (pRetry input options).settleCalls.head? = some (SettleCall.rejectCall e) ∧
    (pRetry input options).onFailedAttemptSeen =
      faeRange input options 1 (k - 1) ++ [decorateErrorWithCounts e k options] := by
  have hskip := sessionLoop_skip input options (k - 1) options.retries 1 [] hpre hbound
  have h1k : 1 + (k - 1) = k := by omega
  rw [h1k] at hskip
  rcases h4 : options.onFailedAttempt (decorateErrorWithCounts e k options) with th | u
  · have hstep : ∀ (timeouts : Nat) (errors : List JSValue),
        sessionLoop input options timeouts k errors =
          ⟨[SettleCall.rejectCall e,
            SettleCall.rejectCall (decorateErrorWithCounts th k options)], 1,
           [decorateErrorWithCounts e k options], [decorateErrorWithCounts e k options]⟩ := by
      intro timeouts errors
      rw [sessionLoop]
      simp [he, hcls, hveto, h4]
    rw [pRetry, hskip, hstep]
    exact ⟨by simp; omega, rfl, rfl⟩
  · have hstep : ∀ (timeouts : Nat) (errors : List JSValue),
        sessionLoop input options timeouts k errors =
          ⟨[SettleCall.rejectCall e,
            SettleCall.rejectCall (decorateErrorWithCounts
              (mainError (errors ++ [decorateErrorWithCounts e k options])) k options)], 1,
           [decorateErrorWithCounts e k options], [decorateErrorWithCounts e k options]⟩ := by
      intro timeouts errors
      rw [sessionLoop]
      simp [he, hcls, hveto, h4]
    rw [pRetry, hskip, hstep]
    exact ⟨by simp; omega, rfl, rfl⟩

/-- C4 (amended): when the observer onFailedAttempt throws on attempt k of a
session whose earlier attempts all proceeded and whose attempt-k error was
retryable with a consenting predicate, no further attempt occurs (exactly k
invocations) and the session rejects with a FailedAttemptError decorating the
thrown value — attemptNumber k, retriesLeft retries - (k - 1), message and
cause taken from the thrown value, fully replacing the original error. -/
theorem claim4_amended_observer_throw {T : Type} (input : Nat → Except JSValue T)
    (options : Options) (k : Nat) (e th : JSValue)
    (hk : 1 ≤ k) (hbound : k - 1 ≤ options.retries)
    (hpre : ∀ i, i < k - 1 → proceedsAt input options (1 + i))
    (he : input k = Except.error e) (hcls : classify e = Classified.retryable)
    (hsr : options.shouldRetry (decorateErrorWithCounts e k options) = Except.ok true)
    (hofa : options.onFailedAttempt (decorateErrorWithCounts e k options) = Except.error th) :
    (pRetry input options).invocations = k ∧
    (pRetry input options).settleCalls =
      [SettleCall.rejectCall (decorateErrorWithCounts th k options)] ∧
    decorateErrorWithCounts th k options =
      JSValue.failedAttempt k ((options.retries : Int) - ((k : Int) - 1)) th.message th := by
  have hskip := sessionLoop_skip input options (k - 1) options.retries 1 [] hpre hbound
  have h1k : 1 + (k - 1) = k := by omega
  rw [h1k] at hskip
  have hstep : ∀ (timeouts : Nat) (errors : List JSValue),
      sessionLoop input options timeouts k errors =
        ⟨[SettleCall.rejectCall (decorateErrorWithCounts th k options)], 1,
         [decorateErrorWithCounts e k options], [decorateErrorWithCounts e k options]⟩ := by
    intro timeouts errors
    rw [sessionLoop]
    simp [he, hcls, hsr, hofa]
  rw [pRetry, hskip, hstep]
  exact ⟨by simp; omega, rfl, rfl⟩

/-- C2 (amended): a TypeError named TypeError whose message is one of the
recognized network-failure strings — with "Load failed" additionally
requiring an undefined stack — is classified as a network error, hence a
retryable candidate, and a session failing with it on attempt 1 (consenting
predicate and normal observer) retries and resolves on attempt 2 instead of
rejecting fatally. -/
theorem claim2_amended_network_retry {T : Type} (input : Nat → Except JSValue T)
    (options : Options) (v : T) (m : String) (st : Option String)
    (hm : m ∈ errorMessages) (hlf : m = "Load failed" → st = none)
    (he : input 1 = Except.error (JSValue.typeErr "TypeError" m st))
    (hsr : options.shouldRetry
      (decorateErrorWithCounts (JSValue.typeErr "TypeError" m st) 1 options) = Except.ok true)
    (hofa : options.onFailedAttempt
      (decorateErrorWithCounts (JSValue.typeErr "TypeError" m st) 1 options) = Except.ok ())
    (hok : input 2 = Except.ok v) (hr : 1 ≤ options.retries) :
    isNetworkError (JSValue.typeErr "TypeError" m st) = true ∧
    classify (JSValue.typeErr "TypeError" m st) = Classified.retryable ∧
    (pRetry input options).settleCalls = [SettleCall.resolveCall v] ∧
    (pRetry input options).invocations = 2 := by
  have hnet : isNetworkError (JSValue.typeErr "TypeError" m st) = true := by
    rw [isNetworkError]
    by_cases hLf : m = "Load failed"
    · simp [JSValue.isErrorInstance, JSValue.name, JSValue.message, hLf, hlf hLf,
        JSValue.stackProp]
    · simp only [JSValue.isErrorInstance, JSValue.name, JSValue.message, JSValue.stackProp]
      simp [hLf]
      simpa using hm
  have hcls : classify (JSValue.typeErr "TypeError" m st) = Classified.retryable := by
    simp [classify, hnet]
  obtain ⟨t, ht⟩ : ∃ t, options.retries = t + 1 := ⟨options.retries - 1, by omega⟩
  have hrun : sessionLoop input options (t + 1) 1 [] =
      ⟨[SettleCall.resolveCall v], 2,
       [decorateErrorWithCounts (JSValue.typeErr "TypeError" m st) 1 options],
       [decorateErrorWithCounts (JSValue.typeErr "TypeError" m st) 1 options]⟩ := by
    rw [sessionLoop]
    simp only [he, hcls, hsr, hofa]
    rw [sessionLoop]
    simp [hok]
  rw [pRetry, ht, hrun]
  exact ⟨hnet, hcls, rfl, rfl⟩

/-- C2 (counterexample): a thrown TypeError whose message is the recognized
string "Load failed" but which carries a stack is NOT classified as a network
error and is rejected fatally on the first attempt, refuting the claim for
that recognized message. -/
def loadFailedWithStack : JSValue := JSValue.typeErr "TypeError" "Load failed" (some "at fetch")

def claim2BadInput : Nat → Except JSValue Nat := fun i =>
  if i = 1 then Except.error loadFailedWithStack else Except.ok 42

/-- C2 (counterexample): with the recognized message "Load failed" and a
defined stack, the session makes exactly one attempt and rejects instead of
retrying. -/
theorem claim2_counterexample :
    "Load failed" ∈ errorMessages ∧
    isNetworkError loadFailedWithStack = false ∧
    (pRetry claim2BadInput {}).invocations = 1 ∧
    (pRetry claim2BadInput {}).settleCalls =
      [SettleCall.rejectCall (decorateErrorWithCounts loadFailedWithStack 1 {})] := by
  decide

/-- The fixture of the repository's aborts test: a plain Error with message
fixture and a stack. -/
def fixtureError : JSValue := JSValue.plainErr "Error" "fixture" (some "stacktrace")

/-- The operation of the repository's aborts test: reject with the fixture
error twice, then reject with an AbortError wrapping it on attempt 3. -/
def abortTestInput : Nat → Except JSValue Nat := fun i =>
  if i = 3 then Except.error (JSValue.abortErr fixtureError "AbortError" "fixture")
  else Except.error fixtureError

/-- C5: on the repository's own aborts test scenario the session makes
exactly 3 attempts and consults neither shouldRetry nor onFailedAttempt for
the aborted attempt, as the claim states — but it rejects with a
FailedAttemptError decorating the wrapped original error (line 172 decorates
the final error), not with the original error itself, contradicting the
claim and the test's assertion of identity with the original error. -/
theorem claim5_abort_rejection_decorated :
    (pRetry abortTestInput {}).invocations = 3 ∧
    (pRetry abortTestInput {}).shouldRetrySeen.length = 2 ∧
    (pRetry abortTestInput {}).onFailedAttemptSeen.length = 2 ∧
    (pRetry abortTestInput {}).settleCalls =
      [SettleCall.rejectCall (JSValue.failedAttempt 3 8 "fixture" fixtureError)] ∧
    (pRetry abortTestInput {}).settleCalls ≠ [SettleCall.rejectCall fixtureError] := by
  decide

def claim1Error : JSValue := JSValue.plainErr "Error" "boom" none

def claim1Input : Nat → Except JSValue Nat := fun _ => Except.error claim1Error

def claim1Opts : Options := { shouldRetry := fun _ => Except.ok false }

/-- C1 (counterexample): in a session whose predicate vetoes attempt 1,
onFailedAttempt IS invoked with the record of the vetoed attempt (the veto
path does not return), refuting the claim's conjunct that no onFailedAttempt
call occurs after the veto; the effective rejection is still the original
error. -/
theorem claim1_counterexample :
    claim1Opts.shouldRetry (decorateErrorWithCounts claim1Error 1 claim1Opts) =
      Except.ok false ∧
    (pRetry claim1Input claim1Opts).settleCalls.head? =
      some (SettleCall.rejectCall claim1Error) ∧
    (pRetry claim1Input claim1Opts).onFailedAttemptSeen =
      [decorateErrorWithCounts claim1Error 1 claim1Opts] :=
  ⟨rfl, by decide, by decide⟩

/-- C1 (witness): the amended veto theorem instantiated at a concrete
session vetoed on attempt 1. -/
theorem claim1_amended_witness :
    (pRetry claim1Input claim1Opts).invocations = 1 ∧
    (pRetry claim1Input claim1Opts).settleCalls.head? =
      some (SettleCall.rejectCall claim1Error) ∧
    (pRetry claim1Input claim1Opts).onFailedAttemptSeen =
      faeRange claim1Input claim1Opts 1 (1 - 1) ++
        [decorateErrorWithCounts claim1Error 1 claim1Opts] :=
  claim1_amended_veto claim1Input claim1Opts 1 claim1Error (by decide) (by decide)
    (fun _ hi => absurd hi (by omega)) rfl rfl rfl

def claim4Error : JSValue := JSValue.plainErr "Error" "fixture" none

def claim4Thrown : JSValue := JSValue.plainErr "Error" "observer boom" none

def claim4Opts : Options := { onFailedAttempt := fun _ => Except.error claim4Thrown }

def claim4Input : Nat → Except JSValue Nat := fun _ => Except.error claim4Error

/-- C4 (counterexample): when onFailedAttempt throws, the session rejects
with a FailedAttemptError decorating the thrown value, not with the thrown
value itself, refuting the claim's conjunct that the promise rejects with
the value thrown by onFailedAttempt. -/
theorem claim4_counterexample :
    claim4Opts.onFailedAttempt (decorateErrorWithCounts claim4Error 1 claim4Opts) =
      Except.error claim4Thrown ∧
    (pRetry claim4Input claim4Opts).settleCalls =
      [SettleCall.rejectCall (JSValue.failedAttempt 1 10 "observer boom" claim4Thrown)] ∧
    (pRetry claim4Input claim4Opts).settleCalls ≠ [SettleCall.rejectCall claim4Thrown] ∧
    (pRetry claim4Input claim4Opts).invocations = 1 :=
  ⟨rfl, by decide, by decide, by decide⟩

/-- C4 (witness): the amended observer-throw theorem instantiated at a
concrete session whose observer throws on attempt 1. -/
theorem claim4_amended_witness :
    (pRetry claim4Input claim4Opts).invocations = 1 ∧
    (pRetry claim4Input claim4Opts).settleCalls =
      [SettleCall.rejectCall (decorateErrorWithCounts claim4Thrown 1 claim4Opts)] ∧
    decorateErrorWithCounts claim4Thrown 1 claim4Opts =
      JSValue.failedAttempt 1 ((claim4Opts.retries : Int) - (((1 : Nat) : Int) - 1))
        claim4Thrown.message claim4Thrown :=
  claim4_amended_observer_throw claim4Input claim4Opts 1 claim4Error claim4Thrown
    (by decide) (by decide) (fun _ hi => absurd hi (by omega)) rfl rfl rfl rfl

def claim2NetInput : Nat → Except JSValue Nat := fun i =>
  if i = 1 then Except.error (JSValue.typeErr "TypeError" "Failed to fetch" (some "at fetch"))
  else Except.ok 42

/-- C2 (witness): the amended network-retry theorem instantiated with the
recognized message Failed to fetch. -/
theorem claim2_amended_witness :
    isNetworkError (JSValue.typeErr "TypeError" "Failed to fetch" (some "at fetch")) = true ∧
    classify (JSValue.typeErr "TypeError" "Failed to fetch" (some "at fetch")) =
      Classified.retryable ∧
    (pRetry claim2NetInput {}).settleCalls = [SettleCall.resolveCall 42] ∧
    (pRetry claim2NetInput {}).invocations = 2 :=
  claim2_amended_network_retry claim2NetInput {} 42 "Failed to fetch" (some "at fetch")
    (by decide) (fun h => absurd h (by decide)) rfl rfl rfl rfl (by decide)

def claim6Input : Nat → Except JSValue Nat := fun _ => Except.error (JSValue.nonError "foo")

/-- C6 (witness): the non-error theorem instantiated at an operation
throwing the string foo. -/
theorem claim6_witness :
    (pRetry claim6Input {}).invocations = 1 ∧
    (pRetry claim6Input {}).settleCalls =
      [SettleCall.rejectCall (decorateErrorWithCounts
        (JSValue.typeErr "TypeError" (nonErrorMessage "foo") (some "")) 1 {})] ∧
    (decorateErrorWithCounts
      (JSValue.typeErr "TypeError" (nonErrorMessage "foo") (some "")) 1
      ({} : Options)).message = nonErrorMessage "foo" :=
  claim6_non_error_single_attempt claim6Input {} "foo" rfl

def claim7Input : Nat → Except JSValue Nat := fun _ =>
  Except.error (JSValue.typeErr "TypeError" "type-error-fixture" none)

/-- C7 (witness): the non-network TypeError theorem instantiated at the
repository test's type-error-fixture message. -/
theorem claim7_witness :
    isNetworkError (JSValue.typeErr "TypeError" "type-error-fixture" none) = false ∧
    (pRetry claim7Input {}).invocations = 1 ∧
    (pRetry claim7Input {}).settleCalls =
      [SettleCall.rejectCall (decorateErrorWithCounts
        (JSValue.typeErr "TypeError" "type-error-fixture" none) 1 {})] :=
  claim7_type_error_single_attempt claim7Input {} "TypeError" "type-error-fixture" none
    (by decide) rfl

def claim8Err : JSValue := JSValue.plainErr "Error" "boom" none

def claim8Opts : Options := { retries := 1 }

def claim8Input : Nat → Except JSValue Nat := fun _ => Except.error claim8Err

/-- C8 (witness): the record-count theorem instantiated at observation
position 0 of a concrete session. -/
theorem claim8_witness :
    ∃ m c, JSValue.failedAttempt 1 1 "boom" claim8Err =
      JSValue.failedAttempt (1 + 0)
        ((claim8Opts.retries : Int) - (((1 + 0 : Nat) : Int) - 1)) m c :=
  (claim8_record_counts claim8Input claim8Opts).2 0
    (JSValue.failedAttempt 1 1 "boom" claim8Err) (by decide)

def claim9Input : Nat → Except JSValue Nat := fun i =>
  if i = 3 then Except.ok 7 else Except.error (JSValue.plainErr "Error" "fixture" none)

/-- C9 (witness): the success theorem instantiated at the repository test's
scenario: two retryable failures, success on attempt 3 under default
options. -/
theorem claim9_witness :
    (pRetry claim9Input {}).settleCalls = [SettleCall.resolveCall 7] ∧
    (pRetry claim9Input {}).invocations = 3 :=
  claim9_success_on_attempt_k claim9Input {} 3 7 (by decide) (by decide)
    (by
      intro i hi
      interval_cases i <;>
        exact ⟨JSValue.plainErr "Error" "fixture" none, rfl, rfl, rfl, rfl⟩)
    rfl

def claim10Reason : JSValue := JSValue.plainErr "Error" "cancelled" none

def claim10Opts : Options := { signal := some { aborted := true, reason := claim10Reason } }

def claim10Input : Nat → Except JSValue Nat := fun _ => Except.ok 1

/-- C10 (witness): the pre-aborted-signal theorem instantiated at a session
whose options carry an already-aborted signal. -/
theorem claim10_witness :
    registersAbortHandler claim10Opts = false ∧
    pRetry claim10Input claim10Opts =
      pRetry claim10Input { claim10Opts with signal := none } :=
  claim10_pre_aborted_signal claim10Input claim10Opts
    { aborted := true, reason := claim10Reason } rfl rfl

end PRetryTS
